import Mathlib

/-!
Verification of the modbus_monitor polling engine (backend/modbus_service.py and
backend/main.py) by a shallow embedding.  External collaborators are modelled as
oracles: the pymodbus client is a function from a request to an outcome, Redis
sorted-set commands are implemented after their documented semantics, and the
asyncio scheduling of the monitoring loop is an explicit trace of per-iteration
events.  Machine integers in the Python source are unbounded Python ints, so
they are modelled as Nat / Int directly.
-/

set_option linter.unusedVariables false

namespace ModbusMonitor

/-- ModbusConfig dataclass (modbus_service.py lines 19-27).  The float-valued
poll_interval and timeout carry no arithmetic in the claims, so they are kept
as exact millisecond counts. -/
structure ModbusConfig where
  host : String
  port : Nat
  deviceId : Nat
  pollIntervalMs : Nat
  timeoutMs : Nat
  retries : Nat
  deriving DecidableEq

/-- RegisterConfig dataclass (modbus_service.py lines 30-36).  add_register
always fills the name field, so it is a plain String here. -/
structure RegisterConfig where
  address : Nat
  count : Nat
  registerType : String
  name : String
  deriving DecidableEq

/-- Outcome of one pymodbus read call, as observed by read_registers:
a successful response carrying result.registers / result.bits (word values and
bit values are both embedded in Int), a response with result.isError() true,
or a raised ModbusException / Exception. -/
inductive ReadOutcome where
  | ok (values : List Int)
  | err
  | exn
  deriving DecidableEq

/-- The dict returned by read_registers (modbus_service.py lines 130-136).
The name key is absent until read_all_registers adds it. -/
structure ReadResult where
  address : Nat
  rtype : String
  count : Nat
  values : List Int
  timestamp : Nat
  name : Option String
  deriving DecidableEq

/-- The register_type strings recognised by the if/elif chain of
read_registers (modbus_service.py lines 101-124). -/
def validRegisterType (t : String) : Bool :=
  t = "holding" || t = "input" || t = "coils" || t = "discrete_inputs"

/-- read_registers (modbus_service.py lines 94-146).  clientPresent and
clientConnected model self.client and self.client.connected; link is the
pymodbus client, an oracle from (address, count, register_type) to an outcome;
now models datetime.now().  Returns the Optional dict together with the number
of transport calls issued.  Every Python path returns (exceptions are caught),
so the embedding is a total function.  The slice values[:count] becomes
List.take count (pymodbus result.registers / result.bits are lists). -/
def readRegisters (clientPresent clientConnected : Bool)
    (link : Nat → Nat → String → ReadOutcome)
    (address count : Nat) (registerType : String) (now : Nat) :
    Option ReadResult × Nat :=
  if ¬ (clientPresent && clientConnected) then (none, 0)
  else if validRegisterType registerType then
    match link address count registerType with
    | .ok values =>
        (some { address := address, rtype := registerType, count := count,
                values := values.take count, timestamp := now, name := none }, 1)
    | .err => (none, 1)
    | .exn => (none, 1)
  else (none, 0)

/-- The per-result mutation result['name'] = self.registers_to_monitor[i].name
(modbus_service.py line 238). -/
def tagName (n : String) (r : ReadResult) : ReadResult :=
  { r with name := some n }

/-- read_all_registers (modbus_service.py lines 225-243): one read_registers
task per catalog entry, gathered in list order; dict results get the matching
catalog entry name and are kept, everything else is dropped.  The enumerate
pairing of results[i] with registers_to_monitor[i] is the zip below.  Returns
the valid results together with the total number of transport calls. -/
def readAllRegisters (regs : List RegisterConfig)
    (clientPresent clientConnected : Bool)
    (link : Nat → Nat → String → ReadOutcome) (now : Nat) :
    List ReadResult × Nat :=
  let results := regs.map fun reg =>
    readRegisters clientPresent clientConnected link
      reg.address reg.count reg.registerType now
  let valid := (regs.zip results).filterMap fun p =>
    (p.2.1).map (tagName p.1.name)
  (valid, (results.map fun r => r.2).sum)

/-- Outcome of one pymodbus write call: success, a response with
result.isError() true, or a raised exception (caught by the service). -/
inductive WriteOutcome where
  | ok
  | err
  | exn
  deriving DecidableEq

/-- write_single_register (modbus_service.py lines 148-173).  Returns the
Bool result together with the number of transport calls issued.  The source
performs no range check on value: when connected it always issues exactly one
client.write_register call. -/
def writeSingleRegister (clientPresent clientConnected : Bool)
    (link : WriteOutcome) (address : Nat) (value : Int) : Bool × Nat :=
  if ¬ (clientPresent && clientConnected) then (false, 0)
  else
    match link with
    | .ok => (true, 1)
    | .err => (false, 1)
    | .exn => (false, 1)

/-- write_multiple_registers (modbus_service.py lines 175-200), same shape as
writeSingleRegister; the values list is forwarded without any range check. -/
def writeMultipleRegisters (clientPresent clientConnected : Bool)
    (link : WriteOutcome) (address : Nat) (values : List Int) : Bool × Nat :=
  if ¬ (clientPresent && clientConnected) then (false, 0)
  else
    match link with
    | .ok => (true, 1)
    | .err => (false, 1)
    | .exn => (false, 1)

/-- One member of the Redis sorted set modbus:history: the serialised JSON
payload and its timestamp score. -/
structure HistEntry where
  member : String
  score : Int
  deriving DecidableEq

/-- Insertion into a score-ascending list.  Score ties place the new element
after existing ones; the service only ever adds strictly increasing timestamp
scores, so Redis lexicographic tie-breaking is not exercised. -/
def insertByScore : List HistEntry → HistEntry → List HistEntry
  | [], e => [e]
  | x :: xs, e => if e.score < x.score then e :: x :: xs else x :: insertByScore xs e

/-- Redis ZADD on a score-ascending list: an existing member is re-scored,
otherwise the element is inserted at its score position. -/
def zadd (h : List HistEntry) (member : String) (score : Int) : List HistEntry :=
  insertByScore (h.filter fun x => x.member ≠ member) ⟨member, score⟩

/-- Redis ZREMRANGEBYRANK with the documented index normalisation: negative
indexes count from the end; a negative start is clamped to 0; an inverted or
out-of-range window removes nothing; the stop index is clamped to the last
rank. -/
def zremrangebyrank (h : List HistEntry) (start stop : Int) : List HistEntry :=
  let n : Int := h.length
  let s1 := if start < 0 then n + start else start
  let e1 := if stop < 0 then n + stop else stop
  let s2 := max s1 0
  if s2 > e1 ∨ n ≤ s2 then h
  else h.take s2.toNat ++ h.drop ((min e1 (n - 1)).toNat + 1)

/-- Redis ZREVRANGE: the same window normalisation applied to the reversed
(score-descending) list. -/
def zrevrange (h : List HistEntry) (start stop : Int) : List HistEntry :=
  let r := h.reverse
  let n : Int := r.length
  let s1 := if start < 0 then n + start else start
  let e1 := if stop < 0 then n + stop else stop
  let s2 := max s1 0
  if s2 > e1 ∨ n ≤ s2 then []
  else (r.take ((min e1 (n - 1)).toNat + 1)).drop s2.toNat

/-- The modbus:latest key and the modbus:history sorted set (kept in ascending
score order). -/
structure RedisState where
  latest : Option String
  history : List HistEntry
  deriving DecidableEq

/-- store_data_to_redis (modbus_service.py lines 202-223): SET modbus:latest,
ZADD modbus:history, then ZREMRANGEBYRANK modbus:history 0 -1001.  payload
models json.dumps(latest_data) and score the datetime.now().timestamp(). -/
def storeDataToRedis (r : RedisState) (payload : String) (score : Int) : RedisState :=
  let h1 := zadd r.history payload score
  let h2 := zremrangebyrank h1 0 (-1001)
  { latest := some payload, history := h2 }

/-- get_historical_data (main.py lines 311-329): ZREVRANGE modbus:history 0
(limit-1), newest first. -/
def getHistoricalData (r : RedisState) (limit : Int) : List HistEntry :=
  zrevrange r.history 0 (limit - 1)

/-- The ModbusService fields touched by the claims (modbus_service.py lines
42-48).  clientId is the identity of the AsyncModbusTcpClient object currently
held in self.client (none before the first connect), clientConnected its
connected attribute. -/
structure ServiceState where
  config : ModbusConfig
  clientId : Option Nat
  clientConnected : Bool
  running : Bool
  registersToMonitor : List RegisterConfig
  deriving DecidableEq

/-- The f-string default f"{register_type}_{address}" used by add_register. -/
def defaultRegisterName (registerType : String) (address : Nat) : String :=
  registerType ++ "_" ++ toString address

/-- add_register (modbus_service.py lines 50-59).  The Python `name or ...`
falls back to the default both for None and for the empty string. -/
def addRegister (s : ServiceState) (address count : Nat)
    (registerType : String) (name : Option String) : ServiceState :=
  let chosen :=
    match name with
    | none => defaultRegisterName registerType address
    | some n => if n = "" then defaultRegisterName registerType address else n
  { s with registersToMonitor := s.registersToMonitor ++
      [{ address := address, count := count, registerType := registerType,
         name := chosen }] }

/-- connect (modbus_service.py lines 61-82): unconditionally constructs a new
AsyncModbusTcpClient (freshClientId is its identity), awaits its connect, and
returns the new client's connected status; an exception during the attempt is
caught and reported as False, which is folded into connectResult. -/
def connect (s : ServiceState) (freshClientId : Nat) (connectResult : Bool) :
    ServiceState × Bool :=
  ({ s with clientId := some freshClientId, clientConnected := connectResult },
   connectResult)

/-- disconnect (modbus_service.py lines 84-88): closes the client when one is
present. -/
def disconnect (s : ServiceState) : ServiceState :=
  if s.clientId.isSome then { s with clientConnected := false } else s

/-- is_connected (modbus_service.py lines 90-92). -/
def isConnected (s : ServiceState) : Bool :=
  s.clientId.isSome && s.clientConnected

/-- stop_monitoring (modbus_service.py lines 295-297). -/
def stopMonitoring (s : ServiceState) : ServiceState :=
  { s with running := false }

/-- The /api/start_monitoring endpoint effect on the register catalog
(main.py lines 264-277): one add_register call with the environment-configured
holding range. -/
def startMonitoringEndpoint (s : ServiceState) (startAddr endAddr : Nat) :
    ServiceState :=
  addRegister s startAddr (endAddr - startAddr + 1) "holding"
    (some ("Holding_" ++ toString startAddr ++ "-" ++ toString endAddr))

/-- The state of one start_monitoring loop (modbus_service.py lines 245-293):
self.running, whether self.client exists and is connected, and the local
consecutive_errors counter. -/
structure MonState where
  running : Bool
  connected : Bool
  consecutiveErrors : Nat
  deriving DecidableEq

/-- What the environment does during one loop iteration.  normal: the awaits
complete, connectOk telling whether a reconnection attempt (if one happens)
succeeds and dataNonEmpty whether read_all_registers returns a non-empty list.
cancel: CancelledError is raised at an await inside the try block (it is
caught and the loop breaks; counter updates that may precede the cancellation
inside the iteration do not affect any property stated below).  exn: a
non-CancelledError exception reaches the except Exception handler and the
handler completes.  exnThenCancel: the same, but CancelledError is raised
during the asyncio.sleep inside that handler, which is outside the try
protection.  stop: stop_monitoring set self.running to False before the while
condition was re-checked. -/
inductive IterEvent where
  | normal (connectOk : Bool) (dataNonEmpty : Bool)
  | cancel
  | exn
  | exnThenCancel
  | stop
  deriving DecidableEq

/-- How an iteration leaves the while loop: continue to the next iteration,
break out of the loop (reaching the trailing self.running = False), or escape
with a propagating exception (skipping that assignment). -/
inductive ExitKind where
  | cont
  | brk
  | esc
  deriving DecidableEq

/-- Observable outcome of one loop iteration: successor state, how the loop
proceeds, whether self.connect() was attempted, whether read_all_registers ran,
whether store_data_to_redis was called (a batch was emitted), and whether the
full poll-interval sleep completed. -/
structure StepOut where
  next : MonState
  exit : ExitKind
  connectTried : Bool
  cycleRan : Bool
  emitted : Bool
  slept : Bool
  deriving DecidableEq

/-- max_consecutive_errors (modbus_service.py line 249). -/
def maxConsecutiveErrors : Nat := 5

/-- Lines 265-280 of modbus_service.py: read_all_registers has run; non-empty
data resets the counter and is stored, empty data increments it; then the
threshold check, then the poll-interval sleep. -/
def runCycle (s : MonState) (dataNonEmpty : Bool) (connectTried : Bool) : StepOut :=
  let e := if dataNonEmpty then 0 else s.consecutiveErrors + 1
  if maxConsecutiveErrors ≤ e then
    ⟨{ s with consecutiveErrors := e }, .brk, connectTried, true, dataNonEmpty, false⟩
  else
    ⟨{ s with consecutiveErrors := e }, .cont, connectTried, true, dataNonEmpty, true⟩

/-- One iteration of the while body (modbus_service.py lines 253-291) under a
given environment event. -/
def monitorStep (s : MonState) (ev : IterEvent) : StepOut :=
  match ev with
  | .stop => ⟨{ s with running := false }, .brk, false, false, false, false⟩
  | .cancel => ⟨s, .brk, false, false, false, false⟩
  | .exn =>
      let e := s.consecutiveErrors + 1
      if maxConsecutiveErrors ≤ e then
        ⟨{ s with consecutiveErrors := e }, .brk, false, false, false, false⟩
      else
        ⟨{ s with consecutiveErrors := e }, .cont, false, false, false, true⟩
  | .exnThenCancel =>
      let e := s.consecutiveErrors + 1
      if maxConsecutiveErrors ≤ e then
        ⟨{ s with consecutiveErrors := e }, .brk, false, false, false, false⟩
      else
        ⟨{ s with consecutiveErrors := e }, .esc, false, false, false, false⟩
  | .normal connectOk dataNonEmpty =>
      if s.connected then runCycle s dataNonEmpty false
      else if connectOk then runCycle { s with connected := true } dataNonEmpty true
      else
        let e := s.consecutiveErrors + 1
        if maxConsecutiveErrors ≤ e then
          ⟨{ s with consecutiveErrors := e }, .brk, true, false, false, false⟩
        else
          ⟨{ s with consecutiveErrors := e }, .cont, true, false, false, true⟩

/-- Result of running the loop over a finite trace of iteration events: final
state, the events left unconsumed at loop exit, how many acquisition cycles
ran, how many batches were stored, whether the loop actually exited within the
trace, and whether it exited by a propagating exception (skipping the trailing
self.running = False). -/
structure LoopOut where
  state : MonState
  rest : List IterEvent
  cycles : Nat
  batches : Nat
  terminated : Bool
  escaped : Bool
  deriving DecidableEq

/-- The while loop of start_monitoring over a finite event trace.  An
exhausted trace with the loop still running is reported with terminated =
false; when the while condition fails or a break runs, the trailing
self.running = False executes; an escaping exception skips it. -/
def monitorLoop : MonState → List IterEvent → LoopOut
  | s, [] => ⟨s, [], 0, 0, !s.running, false⟩
  | s, ev :: tr1 =>
    if s.running = false then ⟨s, ev :: tr1, 0, 0, true, false⟩
    else
      let o := monitorStep s ev
      let c : Nat := if o.cycleRan then 1 else 0
      let b : Nat := if o.emitted then 1 else 0
      match o.exit with
      | .brk => ⟨{ o.next with running := false }, tr1, c, b, true, false⟩
      | .esc => ⟨o.next, tr1, c, b, true, true⟩
      | .cont =>
        let r := monitorLoop o.next tr1
        ⟨r.state, r.rest, c + r.cycles, b + r.batches, r.terminated, r.escaped⟩

/-- start_monitoring (modbus_service.py lines 245-293): sets self.running to
True and enters the loop with the local consecutive_errors counter initialised
to 0. -/
def startMonitoring (connected : Bool) (tr : List IterEvent) : LoopOut :=
  monitorLoop { running := true, connected := connected, consecutiveErrors := 0 } tr

/-- A loop round the claims call failed: the awaits complete but no data is
produced, covering both a failed reconnection attempt and an empty acquisition
cycle. -/
def isFailRound : IterEvent → Bool
  | .normal _ false => true
  | _ => false

theorem zip_map_filterMap {α β γ : Type} (l : List α) (f : α → β)
    (g : α × β → Option γ) :
    (l.zip (l.map f)).filterMap g = l.filterMap fun a => g (a, f a) := by
  induction l with
  | nil => rfl
  | cons x xs ih =>
      cases hx : g (x, f x) <;>
        simp [List.zip_cons_cons, List.filterMap_cons, hx, ih]

theorem readRegisters_calls (cp cc : Bool) (link : Nat → Nat → String → ReadOutcome)
    (a c : Nat) (t : String) (now : Nat) :
    (readRegisters cp cc link a c t now).2 =
      if cp && cc && validRegisterType t then 1 else 0 := by
  unfold readRegisters
  by_cases h1 : (cp && cc) = true
  · by_cases h2 : validRegisterType t = true
    · cases hl : link a c t <;> simp [h1, h2, hl]
    · simp [h1, h2]
  · simp [h1]

theorem sum_map_ones {α : Type} (l : List α) (f : α → Nat)
    (h : ∀ x ∈ l, f x = 1) : (l.map f).sum = l.length := by
  induction l with
  | nil => rfl
  | cons x xs ih =>
      simp [h x (by simp), ih fun y hy => h y (by simp [hy])]
      omega

theorem length_filterMap_tag (l : List RegisterConfig)
    (h : RegisterConfig → Option ReadResult) :
    (l.filterMap fun reg => (h reg).map (tagName reg.name)).length =
      l.countP fun reg => (h reg).isSome := by
  induction l with
  | nil => rfl
  | cons x xs ih =>
      cases hx : h x <;>
        simp [List.filterMap_cons, hx, List.countP_cons, ih]

/-- C1: For every register catalog of size N, one acquisition cycle
(read_all_registers) issues exactly N block reads against the connected
device link (one per catalog entry), and the output batch contains exactly
the successful reads, in catalog insertion order, each tagged with its
catalog entry's display name; the batch length is the number of successful
reads. -/
theorem C1_acquisition_cycle (regs : List RegisterConfig)
    (link : Nat → Nat → String → ReadOutcome) (now : Nat) (cp cc : Bool)
    (hvalid : ∀ reg ∈ regs, validRegisterType reg.registerType = true) :
    (cp = true → cc = true →
      (readAllRegisters regs cp cc link now).2 = regs.length) ∧
    (readAllRegisters regs cp cc link now).1 =
      (regs.filterMap fun reg =>
        ((readRegisters cp cc link reg.address reg.count reg.registerType now).1).map
          (tagName reg.name)) ∧
    (readAllRegisters regs cp cc link now).1.length =
      (regs.countP fun reg =>
        ((readRegisters cp cc link reg.address reg.count reg.registerType now).1).isSome) := by
  refine ⟨?_, ?_, ?_⟩
  · intro hcp hcc
    subst hcp hcc
    show ((regs.map fun reg =>
        readRegisters true true link reg.address reg.count reg.registerType now).map
          fun r => r.2).sum = regs.length
    rw [List.map_map]
    apply sum_map_ones
    intro reg hreg
    simp only [Function.comp]
    rw [readRegisters_calls]
    simp [hvalid reg hreg]
  · show ((regs.zip (regs.map fun reg =>
        readRegisters cp cc link reg.address reg.count reg.registerType now)).filterMap
          fun p => (p.2.1).map (tagName p.1.name)) = _
    rw [zip_map_filterMap]
  · show ((regs.zip (regs.map fun reg =>
        readRegisters cp cc link reg.address reg.count reg.registerType now)).filterMap
          fun p => (p.2.1).map (tagName p.1.name)).length = _
    rw [zip_map_filterMap]
    exact length_filterMap_tag regs fun reg =>
      (readRegisters cp cc link reg.address reg.count reg.registerType now).1

/-- Device link used by the C1 witness: address 1 answers, everything else
reports an error response. -/
def demoLink : Nat → Nat → String → ReadOutcome := fun a _ _ =>
  if a = 1 then .ok [10, 20, 30, 40] else .err

/-- Register catalog used by the C1 witness. -/
def demoRegs : List RegisterConfig :=
  [⟨1, 4, "holding", "Holding_1-26"⟩, ⟨2, 1, "input", "Input_2"⟩]

/-- Witness for C1 at a concrete two-entry catalog. -/
theorem C1_witness :
    (readAllRegisters demoRegs true true demoLink 0).2 = demoRegs.length ∧
    (readAllRegisters demoRegs true true demoLink 0).1 =
      (demoRegs.filterMap fun reg =>
        ((readRegisters true true demoLink reg.address reg.count reg.registerType 0).1).map
          (tagName reg.name)) := by
  have h := C1_acquisition_cycle demoRegs demoLink 0 true true (by decide)
  exact ⟨h.1 rfl rfl, h.2.1⟩

/-- C3 counterexample: on a connected link, writing 65536 (outside the 16-bit
range) issues one transport call and reports plain success; there is no
ValidationError and no I/O-free rejection, contrary to the claim. -/
theorem C3_counterexample :
    writeSingleRegister true true .ok 10 65536 = (true, 1) ∧
    writeMultipleRegisters true true .ok 10 [65536] = (true, 1) := by
  exact ⟨rfl, rfl⟩

/-- C3 amended: the write operations perform no value-range validation at all.
Their results are independent of the value written; when the client is absent
or disconnected they return False having issued no transport call; when
connected they always issue exactly one transport call, whatever the value,
and return True exactly when the link reports success. -/
theorem C3_no_validation (cp cc : Bool) (link : WriteOutcome) (a : Nat)
    (v v2 : Int) (vs vs2 : List Int) :
    writeSingleRegister cp cc link a v = writeSingleRegister cp cc link a v2 ∧
    writeMultipleRegisters cp cc link a vs = writeMultipleRegisters cp cc link a vs2 ∧
    writeSingleRegister true true link a v =
      ((if link = .ok then true else false), 1) ∧
    writeMultipleRegisters true true link a vs =
      ((if link = .ok then true else false), 1) ∧
    writeSingleRegister false cc link a v = (false, 0) ∧
    writeSingleRegister cp false link a v = (false, 0) ∧
    writeMultipleRegisters false cc link a vs = (false, 0) ∧
    writeMultipleRegisters cp false link a vs = (false, 0) := by
  cases link <;> cases cp <;> cases cc <;>
    simp [writeSingleRegister, writeMultipleRegisters]

/-- C10: read_registers called with the client absent or disconnected, or with
a register kind outside the four recognised ones, returns None having issued
no transport call (the embedding is a total function because every Python path
of read_registers catches its exceptions and returns). -/
theorem C10_guarded_reads (cp cc : Bool) (link : Nat → Nat → String → ReadOutcome)
    (a c : Nat) (t : String) (now : Nat) :
    (cp = false ∨ cc = false → readRegisters cp cc link a c t now = (none, 0)) ∧
    (validRegisterType t = false → readRegisters cp cc link a c t now = (none, 0)) := by
  constructor
  · rintro (rfl | rfl) <;> simp [readRegisters]
  · intro hv
    unfold readRegisters
    by_cases h1 : (cp && cc) = true <;> simp [h1, hv]

/-- Witness for C10: a disconnected read and an unknown-kind read both return
None with zero transport calls. -/
theorem C10_witness :
    readRegisters false true (fun _ _ _ => .ok [1]) 0 1 "holding" 0 = (none, 0) ∧
    readRegisters true true (fun _ _ _ => .ok [1]) 0 1 "bogus" 0 = (none, 0) :=
  ⟨(C10_guarded_reads false true (fun _ _ _ => .ok [1]) 0 1 "holding" 0).1 (Or.inl rfl),
   (C10_guarded_reads true true (fun _ _ _ => .ok [1]) 0 1 "bogus" 0).2 (by decide)⟩

/-- Device link used by the C4 counterexample: it always answers with only two
values. -/
def shortReadLink : Nat → Nat → String → ReadOutcome := fun _ _ _ => .ok [1, 2]

/-- C4 counterexample: requesting 3 registers from a device that answers with
2 values yields a successful ReadingResult whose value list has length 2, not
3 — the partial read is passed through, not rejected as a failure. -/
theorem C4_counterexample :
    ((readRegisters true true shortReadLink 0 3 "holding" 0).1.map
        fun r => r.values.length) = some 2 ∧
    ((readRegisters true true shortReadLink 0 3 "holding" 0).1.map
        fun r => r.count) = some 3 := by
  exact ⟨rfl, rfl⟩

/-- C4 amended: a successful read keeps values[:count] of whatever the device
returned, so its value-sequence length is min(count, returned length): a
response longer than count is silently truncated to count, and a response
shorter than count is passed through short rather than rejected. -/
theorem C4_partial_reads (cp cc : Bool) (link : Nat → Nat → String → ReadOutcome)
    (a c : Nat) (t : String) (now : Nat) (r : ReadResult)
    (h : (readRegisters cp cc link a c t now).1 = some r) :
    ∃ vs, link a c t = .ok vs ∧ r.values = vs.take c ∧
      r.values.length = min c vs.length ∧
      r.address = a ∧ r.count = c ∧ r.rtype = t ∧ r.timestamp = now ∧
      r.name = none := by
  unfold readRegisters at h
  by_cases h1 : (cp && cc) = true
  · by_cases h2 : validRegisterType t = true
    · cases hl : link a c t with
      | ok vs =>
          rw [if_neg (by simp [h1]), if_pos h2, hl] at h
          simp only [Option.some.injEq] at h
          subst h
          exact ⟨vs, rfl, rfl, by simp [List.length_take], rfl, rfl, rfl, rfl, rfl⟩
      | err =>
          rw [if_neg (by simp [h1]), if_pos h2, hl] at h
          simp at h
      | exn =>
          rw [if_neg (by simp [h1]), if_pos h2, hl] at h
          simp at h
    · rw [if_neg (by simp [h1]), if_neg h2] at h
      simp at h
  · rw [if_pos (by simp [h1])] at h
    simp at h

/-- Witness for C4 at a concrete one-register read. -/
theorem C4_witness :
    ∃ vs, (fun _ _ _ => ReadOutcome.ok ([5] : List Int)) 0 1 "holding" = .ok vs ∧
      ({ address := 0, rtype := "holding", count := 1, values := [5],
         timestamp := 3, name := none } : ReadResult).values = vs.take 1 ∧
      ({ address := 0, rtype := "holding", count := 1, values := [5],
         timestamp := 3, name := none } : ReadResult).values.length = min 1 vs.length ∧
      ({ address := 0, rtype := "holding", count := 1, values := [5],
         timestamp := 3, name := none } : ReadResult).address = 0 ∧
      ({ address := 0, rtype := "holding", count := 1, values := [5],
         timestamp := 3, name := none } : ReadResult).count = 1 ∧
      ({ address := 0, rtype := "holding", count := 1, values := [5],
         timestamp := 3, name := none } : ReadResult).rtype = "holding" ∧
      ({ address := 0, rtype := "holding", count := 1, values := [5],
         timestamp := 3, name := none } : ReadResult).timestamp = 3 ∧
      ({ address := 0, rtype := "holding", count := 1, values := [5],
         timestamp := 3, name := none } : ReadResult).name = none :=
  C4_partial_reads true true (fun _ _ _ => ReadOutcome.ok ([5] : List Int))
    0 1 "holding" 3
    { address := 0, rtype := "holding", count := 1, values := [5],
      timestamp := 3, name := none } rfl

/-- Service state used by the C7 claim: a service holding a connected client
whose identity is 1. -/
def connectedService : ServiceState :=
  { config := { host := "h", port := 502, deviceId := 1, pollIntervalMs := 1000,
                timeoutMs := 3000, retries := 3 },
    clientId := some 1, clientConnected := true, running := false,
    registersToMonitor := [] }

/-- C7 counterexample: on an already-connected service, connect() is not an
idempotent no-op.  It replaces the connected client with a freshly built one
(the held client identity changes), and when the fresh connection attempt
fails it even returns failure and leaves the service disconnected. -/
theorem C7_counterexample :
    isConnected connectedService = true ∧
    (connect connectedService 2 false).2 = false ∧
    (connect connectedService 2 false).1.clientConnected = false ∧
    (connect connectedService 2 true).1.clientId ≠ connectedService.clientId := by
  refine ⟨rfl, rfl, rfl, ?_⟩
  decide

/-- C7 amended: connect() on an already-connected service unconditionally
builds a fresh client and returns the fresh connection attempt's status.  The
previously held client object is discarded (the held identity becomes the
fresh one, so the call is not a no-op whenever the fresh object differs),
while the non-client fields are untouched. -/
theorem C7_connect_replaces_client (s : ServiceState) (freshClientId : Nat)
    (ok : Bool) (hconn : isConnected s = true) :
    (connect s freshClientId ok).2 = ok ∧
    (connect s freshClientId ok).1.clientId = some freshClientId ∧
    (connect s freshClientId ok).1.clientConnected = ok ∧
    (connect s freshClientId ok).1.config = s.config ∧
    (connect s freshClientId ok).1.running = s.running ∧
    (connect s freshClientId ok).1.registersToMonitor = s.registersToMonitor ∧
    (s.clientId ≠ some freshClientId → (connect s freshClientId ok).1 ≠ s) := by
  refine ⟨rfl, rfl, rfl, rfl, rfl, rfl, ?_⟩
  intro hne heq
  exact hne ((congrArg ServiceState.clientId heq).symm : s.clientId = some freshClientId)

/-- Witness for C7 at the concrete connected service. -/
theorem C7_witness :
    (connect connectedService 2 true).2 = true ∧
    (connect connectedService 2 true).1.clientId = some 2 ∧
    (connectedService.clientId ≠ some 2 →
      (connect connectedService 2 true).1 ≠ connectedService) := by
  have h := C7_connect_replaces_client connectedService 2 true rfl
  exact ⟨h.1, h.2.1, h.2.2.2.2.2.2⟩

theorem startEndpoint_iterate_length (sa ea k : Nat) (s : ServiceState) :
    ((fun st => startMonitoringEndpoint st sa ea)^[k] s).registersToMonitor.length
      = s.registersToMonitor.length + k := by
  induction k generalizing s with
  | zero => simp
  | succ m ihm =>
      rw [Function.iterate_succ_apply, ihm]
      simp [startMonitoringEndpoint, addRegister]
      omega

/-- C8: add_register appends exactly one entry at the end of the register
catalog (the old catalog is the prefix) and leaves every other service field
unchanged; none of the other service operations ever removes or clears
catalog entries; and k invocations of the start-monitoring endpoint grow the
catalog by exactly k entries, so repeated start/stop cycles accumulate
duplicate register groups. -/
theorem C8_add_register_frame (s : ServiceState) (a c : Nat) (t : String)
    (n : Option String) (fresh : Nat) (ok : Bool) (sa ea k : Nat) :
    (addRegister s a c t n).registersToMonitor.length
        = s.registersToMonitor.length + 1 ∧
    (addRegister s a c t n).registersToMonitor.take s.registersToMonitor.length
        = s.registersToMonitor ∧
    (addRegister s a c t n).config = s.config ∧
    (addRegister s a c t n).clientId = s.clientId ∧
    (addRegister s a c t n).clientConnected = s.clientConnected ∧
    (addRegister s a c t n).running = s.running ∧
    (connect s fresh ok).1.registersToMonitor = s.registersToMonitor ∧
    (disconnect s).registersToMonitor = s.registersToMonitor ∧
    (stopMonitoring s).registersToMonitor = s.registersToMonitor ∧
    ((fun st => startMonitoringEndpoint st sa ea)^[k] s).registersToMonitor.length
        = s.registersToMonitor.length + k := by
  refine ⟨by simp [addRegister], ?_, rfl, rfl, rfl, rfl, rfl, ?_, rfl,
    startEndpoint_iterate_length sa ea k s⟩
  · show (s.registersToMonitor ++ [_]).take s.registersToMonitor.length
        = s.registersToMonitor
    rw [List.take_left]
  · by_cases h : s.clientId.isSome <;> simp [disconnect, h]

theorem monitorStep_failRound (s : MonState) (ev : IterEvent)
    (h : isFailRound ev = true) :
    (monitorStep s ev).next.running = s.running ∧
    (monitorStep s ev).next.consecutiveErrors = s.consecutiveErrors + 1 ∧
    (monitorStep s ev).emitted = false ∧
    (monitorStep s ev).exit =
      (if maxConsecutiveErrors ≤ s.consecutiveErrors + 1
        then ExitKind.brk else ExitKind.cont) := by
  cases ev with
  | normal co d =>
      cases d with
      | true => simp [isFailRound] at h
      | false =>
          by_cases h5 : maxConsecutiveErrors ≤ s.consecutiveErrors + 1 <;>
            cases hc : s.connected <;> cases co <;>
              simp [monitorStep, runCycle, hc, h5]
  | cancel => simp [isFailRound] at h
  | exn => simp [isFailRound] at h
  | exnThenCancel => simp [isFailRound] at h
  | stop => simp [isFailRound] at h

theorem monitorLoop_failRun (es : List IterEvent) :
    ∀ (s : MonState) (rest : List IterEvent),
      s.running = true → (∀ e ∈ es, isFailRound e = true) →
      s.consecutiveErrors + es.length = maxConsecutiveErrors → es ≠ [] →
      (monitorLoop s (es ++ rest)).terminated = true ∧
      (monitorLoop s (es ++ rest)).escaped = false ∧
      (monitorLoop s (es ++ rest)).state.running = false ∧
      (monitorLoop s (es ++ rest)).state.consecutiveErrors = maxConsecutiveErrors ∧
      (monitorLoop s (es ++ rest)).rest = rest ∧
      (monitorLoop s (es ++ rest)).batches = 0 := by
  induction es with
  | nil => intro s rest _ _ _ hne; exact absurd rfl hne
  | cons e es ih =>
      intro s rest hrun hfail hsum _
      obtain ⟨hr, hcE, hem, hex⟩ := monitorStep_failRound s e (hfail e (by simp))
      by_cases hes : es = []
      · subst hes
        have hsum1 : s.consecutiveErrors + 1 = maxConsecutiveErrors := by
          simp only [List.length_cons, List.length_nil] at hsum; omega
        have h5 : maxConsecutiveErrors ≤ s.consecutiveErrors + 1 := by omega
        rw [if_pos h5] at hex
        simp only [List.cons_append, List.nil_append]
        simp only [monitorLoop, hrun, Bool.true_eq_false, if_false, hex]
        simp [hcE, hem, hsum1]
      · have hlen : 1 ≤ es.length := by
          cases es with
          | nil => exact absurd rfl hes
          | cons a l => simp
        have h5 : ¬ maxConsecutiveErrors ≤ s.consecutiveErrors + 1 := by
          simp only [List.length_cons] at hsum
          omega
        rw [if_neg h5] at hex
        have ihr := ih (monitorStep s e).next rest
          (by rw [hr, hrun])
          (fun x hx => hfail x (by simp [hx]))
          (by simp only [List.length_cons] at hsum; rw [hcE]; omega)
          hes
        simp only [List.cons_append]
        simp only [monitorLoop, hrun, Bool.true_eq_false, if_false, hex]
        refine ⟨ihr.1, ihr.2.1, ihr.2.2.1, ihr.2.2.2.1, ihr.2.2.2.2.1, ?_⟩
        simp [hem, ihr.2.2.2.2.2]

/-- C2: From a running loop with the consecutive-error counter at 0, a run of
exactly 5 consecutive failed rounds (failed reconnection attempts or empty
acquisition cycles, in any mix) makes the loop break out: it terminates
normally with running = False and the counter at 5, consuming no further
events (so no further acquisition cycle runs) and emitting no batch during
those rounds.  Any round whose acquisition cycle runs and yields non-empty
data resets the counter to 0.  A renewed start_monitoring call enters the
loop with running = True and the counter re-initialised to 0 — its first
failed round takes the counter to 1, not past the threshold. -/
theorem C2_circuit_breaker (s : MonState) (es rest : List IterEvent)
    (hrun : s.running = true) (hzero : s.consecutiveErrors = 0)
    (hlen : es.length = 5) (hfail : ∀ e ∈ es, isFailRound e = true) :
    ((monitorLoop s (es ++ rest)).terminated = true ∧
     (monitorLoop s (es ++ rest)).escaped = false ∧
     (monitorLoop s (es ++ rest)).state.running = false ∧
     (monitorLoop s (es ++ rest)).state.consecutiveErrors = 5 ∧
     (monitorLoop s (es ++ rest)).rest = rest ∧
     (monitorLoop s (es ++ rest)).batches = 0) ∧
    (∀ (t : MonState) (co : Bool), t.connected = true ∨ co = true →
      (monitorStep t (.normal co true)).next.consecutiveErrors = 0 ∧
      (monitorStep t (.normal co true)).cycleRan = true ∧
      (monitorStep t (.normal co true)).emitted = true) ∧
    (∀ (c : Bool) (tr : List IterEvent),
      startMonitoring c tr =
        monitorLoop { running := true, connected := c, consecutiveErrors := 0 } tr) ∧
    (∀ (c : Bool) (e : IterEvent), isFailRound e = true →
      (monitorStep { running := true, connected := c, consecutiveErrors := 0 } e).next.consecutiveErrors = 1) := by
  refine ⟨?_, ?_, fun c tr => rfl, ?_⟩
  · have h := monitorLoop_failRun es s rest hrun hfail
      (by rw [hzero, hlen]; rfl) (by intro hn; rw [hn] at hlen; simp at hlen)
    exact ⟨h.1, h.2.1, h.2.2.1, h.2.2.2.1, h.2.2.2.2.1, h.2.2.2.2.2⟩
  · intro t co hco
    rcases hco with hco | hco
    · cases hc : t.connected
      · rw [hc] at hco; cases hco
      · simp [monitorStep, runCycle, hc, maxConsecutiveErrors]
    · subst hco
      cases hc : t.connected <;> simp [monitorStep, runCycle, hc, maxConsecutiveErrors]
  · intro c e he
    exact (monitorStep_failRound _ e he).2.1

/-- Witness for C2: a connected loop fed 5 empty cycles followed by a further
event breaks before that further event is consumed. -/
theorem C2_witness :
    (monitorLoop { running := true, connected := true, consecutiveErrors := 0 }
        (List.replicate 5 (IterEvent.normal true false) ++
          [IterEvent.normal true true])).state.running = false ∧
    (monitorLoop { running := true, connected := true, consecutiveErrors := 0 }
        (List.replicate 5 (IterEvent.normal true false) ++
          [IterEvent.normal true true])).rest = [IterEvent.normal true true] ∧
    (monitorLoop { running := true, connected := true, consecutiveErrors := 0 }
        (List.replicate 5 (IterEvent.normal true false) ++
          [IterEvent.normal true true])).batches = 0 := by
  have h := C2_circuit_breaker
    { running := true, connected := true, consecutiveErrors := 0 }
    (List.replicate 5 (IterEvent.normal true false)) [IterEvent.normal true true]
    rfl rfl (by simp) (by decide)
  exact ⟨h.1.2.2.1, h.1.2.2.2.2.1, h.1.2.2.2.2.2⟩

/-- C5 counterexample: an iteration that begins with the device link
disconnected, whose reconnection attempt succeeds and whose reads return
data, runs the acquisition cycle and emits a batch within that very
iteration, contrary to the claim that no acquisition cycle runs in an
iteration that begins disconnected. -/
theorem C5_counterexample :
    (monitorStep { running := true, connected := false, consecutiveErrors := 0 }
        (.normal true true)).connectTried = true ∧
    (monitorStep { running := true, connected := false, consecutiveErrors := 0 }
        (.normal true true)).cycleRan = true ∧
    (monitorStep { running := true, connected := false, consecutiveErrors := 0 }
        (.normal true true)).emitted = true := by
  exact ⟨rfl, rfl, rfl⟩

/-- C5 amended: in an iteration that begins disconnected a reconnection is
attempted.  If it fails, no acquisition cycle runs and no batch is emitted
that iteration, the consecutive-error counter is incremented, and — below the
circuit-breaker threshold — the loop sleeps one poll interval and continues.
If the reconnection succeeds, the acquisition cycle does run in that same
iteration. -/
theorem C5_disconnected_iteration (s : MonState) (d : Bool)
    (hconn : s.connected = false) :
    ((monitorStep s (.normal false d)).connectTried = true ∧
     (monitorStep s (.normal false d)).cycleRan = false ∧
     (monitorStep s (.normal false d)).emitted = false ∧
     (monitorStep s (.normal false d)).next.consecutiveErrors =
        s.consecutiveErrors + 1 ∧
     (s.consecutiveErrors + 1 < maxConsecutiveErrors →
        (monitorStep s (.normal false d)).slept = true ∧
        (monitorStep s (.normal false d)).exit = .cont) ∧
     (maxConsecutiveErrors ≤ s.consecutiveErrors + 1 →
        (monitorStep s (.normal false d)).exit = .brk)) ∧
    ((monitorStep s (.normal true d)).connectTried = true ∧
     (monitorStep s (.normal true d)).cycleRan = true ∧
     (monitorStep s (.normal true d)).next.connected = true ∧
     (monitorStep s (.normal true d)).emitted = d) := by
  constructor
  · by_cases h5 : 5 ≤ s.consecutiveErrors + 1
    · refine ⟨?_, ?_, ?_, ?_, ?_, ?_⟩
      · simp [monitorStep, runCycle, hconn, maxConsecutiveErrors, h5]
      · simp [monitorStep, runCycle, hconn, maxConsecutiveErrors, h5]
      · simp [monitorStep, runCycle, hconn, maxConsecutiveErrors, h5]
      · simp [monitorStep, runCycle, hconn, maxConsecutiveErrors, h5]
      · intro hlt
        exfalso
        simp [maxConsecutiveErrors] at hlt
        omega
      · intro _
        simp [monitorStep, runCycle, hconn, maxConsecutiveErrors, h5]
    · refine ⟨?_, ?_, ?_, ?_, ?_, ?_⟩
      · simp [monitorStep, runCycle, hconn, maxConsecutiveErrors, h5]
      · simp [monitorStep, runCycle, hconn, maxConsecutiveErrors, h5]
      · simp [monitorStep, runCycle, hconn, maxConsecutiveErrors, h5]
      · simp [monitorStep, runCycle, hconn, maxConsecutiveErrors, h5]
      · intro _
        constructor <;> simp [monitorStep, runCycle, hconn, maxConsecutiveErrors, h5]
      · intro hge
        exfalso
        simp [maxConsecutiveErrors] at hge
        omega
  · cases d
    · by_cases h5 : 5 ≤ s.consecutiveErrors + 1 <;>
        simp [monitorStep, runCycle, hconn, maxConsecutiveErrors, h5]
    · simp [monitorStep, runCycle, hconn, maxConsecutiveErrors]

/-- Witness for C5 at a concrete disconnected state. -/
theorem C5_witness :
    ((monitorStep { running := true, connected := false, consecutiveErrors := 0 }
        (.normal false false)).cycleRan = false ∧
     (monitorStep { running := true, connected := false, consecutiveErrors := 0 }
        (.normal false false)).next.consecutiveErrors = 1) ∧
    (monitorStep { running := true, connected := false, consecutiveErrors := 0 }
        (.normal true false)).cycleRan = true := by
  have h := C5_disconnected_iteration
    { running := true, connected := false, consecutiveErrors := 0 } false rfl
  exact ⟨⟨h.1.2.1, h.1.2.2.2.1⟩, h.2.2.1⟩

theorem monitorStep_running_or_brk (s : MonState) (ev : IterEvent) :
    (monitorStep s ev).next.running = s.running ∨
    (monitorStep s ev).exit = .brk := by
  cases ev with
  | stop => exact Or.inr rfl
  | cancel => exact Or.inl rfl
  | exn =>
      by_cases h5 : maxConsecutiveErrors ≤ s.consecutiveErrors + 1 <;>
        simp [monitorStep, h5]
  | exnThenCancel =>
      by_cases h5 : maxConsecutiveErrors ≤ s.consecutiveErrors + 1 <;>
        simp [monitorStep, h5]
  | normal co d =>
      cases d <;> cases hc : s.connected <;> cases co <;>
        by_cases h5 : 5 ≤ s.consecutiveErrors + 1 <;>
          simp [monitorStep, runCycle, maxConsecutiveErrors, hc, h5]

theorem monitorLoop_running_exit (tr : List IterEvent) :
    ∀ s : MonState,
      ((monitorLoop s tr).terminated = true → (monitorLoop s tr).escaped = false →
        (monitorLoop s tr).state.running = false) ∧
      ((monitorLoop s tr).escaped = true →
        (monitorLoop s tr).state.running = true ∧ s.running = true) := by
  induction tr with
  | nil =>
      intro s
      constructor
      · intro ht _
        simp only [monitorLoop] at ht ⊢
        simpa using ht
      · intro hesc
        simp [monitorLoop] at hesc
  | cons ev tr ih =>
      intro s
      by_cases hr : s.running = false
      · constructor
        · intro _ _
          simp [monitorLoop, hr]
        · intro hesc
          simp [monitorLoop, hr] at hesc
      · have hr1 : s.running = true := by
          cases h : s.running
          · exact absurd h hr
          · rfl
        rcases hex : (monitorStep s ev).exit with _ | _ | _
        · -- cont: recurse
          have := ih (monitorStep s ev).next
          constructor
          · intro ht hesc
            simp only [monitorLoop, hr1, Bool.true_eq_false, if_false, hex] at ht hesc ⊢
            exact this.1 ht hesc
          · intro hesc
            simp only [monitorLoop, hr1, Bool.true_eq_false, if_false, hex] at hesc ⊢
            exact ⟨(this.2 hesc).1, by trivial⟩
        · -- brk
          constructor
          · intro _ _
            simp [monitorLoop, hr1, hex]
          · intro hesc
            simp [monitorLoop, hr1, hex] at hesc
        · -- esc
          constructor
          · intro _ hesc
            simp [monitorLoop, hr1, hex] at hesc
          · intro _
            have hnr : (monitorStep s ev).next.running = s.running := by
              rcases monitorStep_running_or_brk s ev with h | h
              · exact h
              · rw [h] at hex; cases hex
            simp only [monitorLoop, hr1, Bool.true_eq_false, if_false, hex]
            exact ⟨by rw [hnr, hr1], by trivial⟩

/-- C9 counterexample: an iteration in which an unexpected exception is
handled below the threshold and the cancellation arrives during the sleep
inside the except-handler terminates the loop by exception propagation,
skipping the trailing running-flag reset: the loop exits with running still
True, contrary to the claim that every termination path leaves it False. -/
theorem C9_counterexample :
    (monitorLoop { running := true, connected := true, consecutiveErrors := 0 }
        [.exnThenCancel]).terminated = true ∧
    (monitorLoop { running := true, connected := true, consecutiveErrors := 0 }
        [.exnThenCancel]).escaped = true ∧
    (monitorLoop { running := true, connected := true, consecutiveErrors := 0 }
        [.exnThenCancel]).state.running = true := by
  exact ⟨rfl, rfl, rfl⟩

/-- C9 amended: every termination of the loop that reaches the trailing
assignment — stop requested, circuit breaker tripped, cancellation caught at
a try-protected await, or an unexpected exception at the threshold — leaves
running = False; the one exception-propagation exit (a cancellation delivered
during the sleep inside the unexpected-exception handler, which sits outside
the try protection) leaves running = True. -/
theorem C9_running_flag (s : MonState) (tr : List IterEvent)
    (ht : (monitorLoop s tr).terminated = true) :
    ((monitorLoop s tr).escaped = false → (monitorLoop s tr).state.running = false) ∧
    ((monitorLoop s tr).escaped = true → (monitorLoop s tr).state.running = true) := by
  have h := monitorLoop_running_exit tr s
  exact ⟨fun hesc => h.1 ht hesc, fun hesc => (h.2 hesc).1⟩

/-- Witness for C9: a stop-requested termination leaves running = False. -/
theorem C9_witness :
    (monitorLoop { running := true, connected := true, consecutiveErrors := 0 }
        [.stop]).state.running = false := by
  have h := C9_running_flag
    { running := true, connected := true, consecutiveErrors := 0 } [.stop] rfl
  exact h.1 rfl

theorem insertByScore_append (l : List HistEntry) (e : HistEntry)
    (hs : ∀ x ∈ l, x.score ≤ e.score) : insertByScore l e = l ++ [e] := by
  induction l with
  | nil => rfl
  | cons x xs ih =>
      rw [insertByScore, if_neg (by have := hs x (by simp); omega),
        ih fun y hy => hs y (by simp [hy])]
      rfl

theorem zadd_append (l : List HistEntry) (m : String) (t : Int)
    (hm : ∀ x ∈ l, x.member ≠ m) (hs : ∀ x ∈ l, x.score ≤ t) :
    zadd l m t = l ++ [⟨m, t⟩] := by
  unfold zadd
  rw [List.filter_eq_self.mpr fun x hx => by simpa using hm x hx]
  exact insertByScore_append l ⟨m, t⟩ hs

theorem zrem_keep_small (h : List HistEntry) (hlen : h.length ≤ 1000) :
    zremrangebyrank h 0 (-1001) = h := by
  simp only [zremrangebyrank]
  norm_num
  intro h1 _
  exact absurd h1 (by omega)

theorem zrem_trim (h : List HistEntry) (hlen : 1001 ≤ h.length) :
    zremrangebyrank h 0 (-1001) = h.drop (h.length - 1000) := by
  simp only [zremrangebyrank]
  norm_num
  rw [if_neg]
  · have harg : (((h.length : Int) + -1001) ⊓ ((h.length : Int) - 1)).toNat + 1
        = h.length - 1000 := by omega
    rw [harg]
  · push_neg
    refine ⟨by omega, ?_⟩
    intro he
    rw [he] at hlen
    simp at hlen

theorem zrevrange_take (h : List HistEntry) (limit : Int) (hl : 1 ≤ limit) :
    zrevrange h 0 (limit - 1) = h.reverse.take limit.toNat := by
  have h0 : ¬ ((0 : Int) < 0) := by omega
  have he : ¬ (limit - 1 < 0) := by omega
  simp only [zrevrange, h0, if_false, he, max_self]
  split
  · rename_i hcond
    have hn : h.reverse.length = 0 := by
      rcases hcond with hc | hc
      · exact hc.elim
      · omega
    rw [List.length_eq_zero] at hn
    rw [hn]
    simp
  · rename_i hcond
    rw [Int.toNat_zero, List.drop_zero]
    apply List.take_eq_take.mpr
    push_neg at hcond
    omega

/-- C6 counterexample: the history endpoint called with limit = 0 issues
ZREVRANGE modbus:history 0 -1, whose stop index -1 denotes the last rank, so
the whole retained history is returned — here 1 entry, which is more than
limit = 0 — contradicting that at most limit entries are returned. -/
theorem C6_counterexample :
    getHistoricalData { latest := none, history := [⟨"a", 5⟩] } 0 = [⟨"a", 5⟩] ∧
    ¬ ((getHistoricalData { latest := none, history := [⟨"a", 5⟩] } 0).length ≤ 0) := by
  exact ⟨rfl, by decide⟩

/-- C6 amended: for a fresh payload with a maximal timestamp, one
store_data_to_redis keeps the history length at min(previous + 1, 1000); at
the 1000-entry boundary the append evicts exactly the oldest entry; the
latest key is overwritten; and for every limit ≥ 1 the history endpoint
returns the limit most recent entries, newest first (at most limit of them).
The at-most-limit bound does not extend to limit ≤ 0, as the counterexample
shows. -/
theorem C6_history_retention (r : RedisState) (p : String) (t : Int) (limit : Int)
    (hm : ∀ x ∈ r.history, x.member ≠ p)
    (hsc : ∀ x ∈ r.history, x.score ≤ t)
    (hlimit : 1 ≤ limit) :
    (r.history.length ≤ 1000 →
      (storeDataToRedis r p t).history.length = min (r.history.length + 1) 1000) ∧
    (r.history.length = 1000 →
      (storeDataToRedis r p t).history = r.history.drop 1 ++ [⟨p, t⟩]) ∧
    (storeDataToRedis r p t).latest = some p ∧
    getHistoricalData r limit = r.history.reverse.take limit.toNat ∧
    (getHistoricalData r limit).length = min limit.toNat r.history.length := by
  have hz : zadd r.history p t = r.history ++ [⟨p, t⟩] := zadd_append _ _ _ hm hsc
  refine ⟨?_, ?_, rfl, zrevrange_take _ _ hlimit, ?_⟩
  · intro hle
    show (zremrangebyrank (zadd r.history p t) 0 (-1001)).length = _
    rw [hz]
    by_cases hc : r.history.length + 1 ≤ 1000
    · rw [zrem_keep_small _ (by simp; omega)]
      simp
      omega
    · rw [zrem_trim _ (by simp; omega)]
      simp
      omega
  · intro h1000
    show zremrangebyrank (zadd r.history p t) 0 (-1001) = _
    rw [hz, zrem_trim _ (by simp [h1000])]
    have hlen1 : (r.history ++ [(⟨p, t⟩ : HistEntry)]).length - 1000 = 1 := by
      simp [h1000]
    rw [hlen1, List.drop_append_of_le_length (by omega)]
  · show (zrevrange r.history 0 (limit - 1)).length = _
    rw [zrevrange_take _ _ hlimit]
    simp [List.length_take]

set_option maxRecDepth 4000 in
/-- Witness for C6: appending a fresh 1001st batch to a full 1000-entry
history evicts the oldest entry, and a limit-5 query takes the 5 newest. -/
theorem C6_witness :
    (storeDataToRedis { latest := none, history := List.replicate 1000 ⟨"x", 0⟩ } "y" 1).history
      = (List.replicate 1000 (⟨"x", 0⟩ : HistEntry)).drop 1 ++ [⟨"y", 1⟩] ∧
    getHistoricalData { latest := none, history := List.replicate 1000 ⟨"x", 0⟩ } 5
      = (List.replicate 1000 (⟨"x", 0⟩ : HistEntry)).reverse.take (5 : Int).toNat := by
  have hm : ∀ x ∈ List.replicate 1000 (⟨"x", 0⟩ : HistEntry), x.member ≠ "y" := by
    intro x hx
    rw [List.eq_of_mem_replicate hx]
    decide
  have hsc : ∀ x ∈ List.replicate 1000 (⟨"x", 0⟩ : HistEntry), x.score ≤ 1 := by
    intro x hx
    rw [List.eq_of_mem_replicate hx]
    decide
  have h := C6_history_retention
    { latest := none, history := List.replicate 1000 ⟨"x", 0⟩ } "y" 1 5 hm hsc
    (by norm_num)
  exact ⟨h.2.1 (List.length_replicate 1000 ⟨"x", 0⟩), h.2.2.2.1⟩

end ModbusMonitor
